import Mathlib

/-!
Shallow embedding of the align-shot-guide camera-guidance application.

JavaScript numbers are modelled as rationals (ℚ).  Where a computation can
produce the special IEEE values NaN or ±Infinity (the overlap-percentage
division), an explicit `JSNum` type with those values is used instead.
Timestamps (`new Date()`) are modelled as natural numbers.
-/

/-- `CapturePoint` from src/types/camera.ts. -/
structure CapturePoint where
  id : ℕ
  x : ℚ
  y : ℚ
  captured : Bool
  imageData : Option String
deriving DecidableEq, Repr

/-- `CameraAlignment` from src/types/camera.ts. -/
structure CameraAlignment where
  isAligned : Bool
  horizontalOffset : ℚ
  verticalOffset : ℚ
  rotation : ℚ
deriving DecidableEq, Repr

/-- `DeviceMotion` reading from src/types/camera.ts. -/
structure DeviceMotion where
  alpha : ℚ
  beta : ℚ
  gamma : ℚ
deriving DecidableEq, Repr

/-- `CaptureSession` from src/types/camera.ts. -/
structure CaptureSession where
  id : String
  points : List CapturePoint
  totalPoints : ℕ
  currentPointIndex : ℕ
  overlapPercentage : ℚ
  isActive : Bool
  startTime : ℕ
  endTime : Option ℕ
deriving DecidableEq, Repr

/-- `generateCapturePoints` from src/utils/cameraUtils.ts: for
`i = 0 .. totalPoints-1`, pushes `{id: i, x: (i/(totalPoints-1))*100, y: 50,
captured: false}`.  (For `totalPoints = 1` JavaScript computes `0/0 = NaN`
for `x`; the rational model yields `0` there, by Lean's `q / 0 = 0`.) -/
def generateCapturePoints (totalPoints : ℕ) : List CapturePoint :=
  (List.range totalPoints).map fun i =>
    { id := i
      x := ((i : ℚ) / ((totalPoints : ℚ) - 1)) * 100
      y := 50
      captured := false
      imageData := none }

/-- `calculateAlignment` from src/utils/cameraUtils.ts (the src/ revision):
`horizontalOffset = gamma * 2`, `verticalOffset = beta`, `rotation = alpha`;
aligned iff `|horizontalOffset| < tolerance` and `|verticalOffset - 45| < 30`
(rotation alignment is hardwired to true). -/
def calculateAlignment (currentPoint : CapturePoint) (deviceMotion : DeviceMotion)
    (tolerance : ℚ := 15) : CameraAlignment :=
  let horizontalOffset := deviceMotion.gamma * 2
  let verticalOffset := deviceMotion.beta
  let rotation := deviceMotion.alpha
  let isHorizontallyAligned := decide (|horizontalOffset| < tolerance)
  let isVerticallyAligned := decide (|verticalOffset - 45| < 30)
  let isRotationAligned := true
  { isAligned := isHorizontallyAligned && isVerticallyAligned && isRotationAligned
    horizontalOffset := horizontalOffset
    verticalOffset := verticalOffset
    rotation := rotation }

/-- The `calculateAlignment` revision in src/unnamed/part_003:
`horizontalOffset = gamma` (no amplification) and all three of
`|gamma|`, `|beta|`, `|alpha|` must be below the tolerance. -/
def calculateAlignmentPart3 (currentPoint : CapturePoint) (deviceMotion : DeviceMotion)
    (tolerance : ℚ := 15) : CameraAlignment :=
  let horizontalOffset := deviceMotion.gamma
  let verticalOffset := deviceMotion.beta
  let rotation := deviceMotion.alpha
  let isHorizontallyAligned := decide (|horizontalOffset| < tolerance)
  let isVerticallyAligned := decide (|verticalOffset| < tolerance)
  let isRotationAligned := decide (|rotation| < tolerance)
  { isAligned := isHorizontallyAligned && isVerticallyAligned && isRotationAligned
    horizontalOffset := horizontalOffset
    verticalOffset := verticalOffset
    rotation := rotation }

/-- JavaScript double values reachable in `calculateOverlapPercentage`:
finite numbers, the two infinities, and NaN. -/
inductive JSNum where
  | num : ℚ → JSNum
  | posInf : JSNum
  | negInf : JSNum
  | nan : JSNum
deriving DecidableEq, Repr

/-- JavaScript division of two finite numbers: `0/0 = NaN`,
`a/0 = ±Infinity` for `a ≠ 0`, ordinary quotient otherwise. -/
def jsDiv (a b : ℚ) : JSNum :=
  if b = 0 then
    if a = 0 then JSNum.nan
    else if 0 < a then JSNum.posInf
    else JSNum.negInf
  else JSNum.num (a / b)

/-- Multiplication of a JS value by a finite constant (IEEE semantics for
the special values; only called with the positive constant 100 here). -/
def jsMulConst (x : JSNum) (c : ℚ) : JSNum :=
  match x with
  | JSNum.num q => JSNum.num (q * c)
  | JSNum.posInf => if 0 < c then JSNum.posInf else if c < 0 then JSNum.negInf else JSNum.nan
  | JSNum.negInf => if 0 < c then JSNum.negInf else if c < 0 then JSNum.posInf else JSNum.nan
  | JSNum.nan => JSNum.nan

/-- `Math.min(a, x)` with `a` finite: returns NaN when `x` is NaN. -/
def jsMin (a : ℚ) (x : JSNum) : JSNum :=
  match x with
  | JSNum.num q => JSNum.num (min a q)
  | JSNum.posInf => JSNum.num a
  | JSNum.negInf => JSNum.negInf
  | JSNum.nan => JSNum.nan

/-- IEEE `>` against a finite bound: false for NaN and -Infinity. -/
def jsGtConst (x : JSNum) (a : ℚ) : Prop :=
  match x with
  | JSNum.num q => a < q
  | JSNum.posInf => True
  | JSNum.negInf => False
  | JSNum.nan => False

instance (x : JSNum) (a : ℚ) : Decidable (jsGtConst x a) := by
  unfold jsGtConst
  exact match x with
  | JSNum.num q => inferInstanceAs (Decidable (a < q))
  | JSNum.posInf => inferInstanceAs (Decidable True)
  | JSNum.negInf => inferInstanceAs (Decidable False)
  | JSNum.nan => inferInstanceAs (Decidable False)

/-- `calculateOverlapPercentage` from src/utils/cameraUtils.ts: returns 0
when there is no next point; otherwise
`min(100, (|userPosition - current.x| / (0.3 * |next.x - current.x|)) * 100)`,
with JavaScript division/`Math.min` semantics for the special values. -/
def calculateOverlapPercentage (currentPoint : CapturePoint)
    (nextPoint : Option CapturePoint) (userPosition : ℚ) : JSNum :=
  match nextPoint with
  | none => JSNum.num 0
  | some np =>
    let pointDistance := |np.x - currentPoint.x|
    let userDistance := |userPosition - currentPoint.x|
    let overlapDistance := pointDistance * (3 / 10)
    jsMin 100 (jsMulConst (jsDiv userDistance overlapDistance) 100)

/-- Guidance-direction values used by `CameraOverlay`. -/
inductive Direction where
  | left
  | right
  | center
deriving DecidableEq, Repr

/-- Guidance classification of the `CameraOverlay` revision in
src/unnamed/part_001: `< -5 ↦ left`, `> 5 ↦ right`, else `center`. -/
def classifyGuidancePart1 (horizontalOffset : ℚ) : Direction :=
  if horizontalOffset < -5 then Direction.left
  else if 5 < horizontalOffset then Direction.right
  else Direction.center

/-- Guidance classification of the `CameraOverlay` revision in
src/unnamed/part_002: `< -10 ↦ right`, `> 10 ↦ left`, else `center`. -/
def classifyGuidancePart2 (horizontalOffset : ℚ) : Direction :=
  if horizontalOffset < -10 then Direction.right
  else if 10 < horizontalOffset then Direction.left
  else Direction.center

/-- Haptic pulses fired by the `useHapticFeedback` hook. -/
inductive Haptic where
  | success
  | warning
  | error
deriving DecidableEq, Repr

/-- `startSession` from src/pages/CameraGuidance.tsx: builds a fresh session
over `generateCapturePoints totalPoints` with index 0, 30% overlap, active,
and no end time. -/
def startSession (totalPoints : ℕ) (sessionId : String) (now : ℕ) : CaptureSession :=
  { id := sessionId
    points := generateCapturePoints totalPoints
    totalPoints := totalPoints
    currentPointIndex := 0
    overlapPercentage := 30
    isActive := true
    startTime := now
    endTime := none }

/-- `stopSession` from src/pages/CameraGuidance.tsx: if a session exists,
marks it inactive and stamps `endTime`. -/
def stopSession (session : Option CaptureSession) (now : ℕ) : Option CaptureSession :=
  match session with
  | none => none
  | some s => some { s with isActive := false, endTime := some now }

/-- `resetSession` from src/pages/CameraGuidance.tsx: discards the session. -/
def resetSession : Option CaptureSession := none

/-- The derived `currentPoint = session?.points[session.currentPointIndex]`
of src/pages/CameraGuidance.tsx. -/
def currentPointOf (session : Option CaptureSession) : Option CapturePoint :=
  match session with
  | none => none
  | some s => s.points[s.currentPointIndex]?

/-- The derived `alignment` of src/pages/CameraGuidance.tsx: computed from
the current point and the latest motion reading, or the all-false default
when there is no current point. -/
def alignmentOf (session : Option CaptureSession) (motion : DeviceMotion) : CameraAlignment :=
  match currentPointOf session with
  | none => { isAligned := false, horizontalOffset := 0, verticalOffset := 0, rotation := 0 }
  | some cp => calculateAlignment cp motion

/-- `handleCapture` from src/pages/CameraGuidance.tsx, as a pure transition.
`cameraResult` is the outcome of the host `Camera.getPhoto` call (`none`
models a thrown error).  Returns the new session value together with the
haptic pulse fired: guard failure fires `warning` and leaves the session
unchanged; a camera error fires `error` and leaves the session unchanged;
success replaces the current point, advances or completes, fires `success`. -/
def handleCapture (session : Option CaptureSession) (motion : DeviceMotion)
    (isCapturing : Bool) (cameraResult : Option String) (now : ℕ) :
    Option CaptureSession × Haptic :=
  match session with
  | none => (none, Haptic.warning)
  | some s =>
    match s.points[s.currentPointIndex]? with
    | none => (some s, Haptic.warning)
    | some currentPoint =>
      if !(calculateAlignment currentPoint motion).isAligned || isCapturing then
        (some s, Haptic.warning)
      else
        match cameraResult with
        | none => (some s, Haptic.error)
        | some dataUrl =>
          let updatedPoints := s.points.set s.currentPointIndex
            { currentPoint with captured := true, imageData := some dataUrl }
          let newCurrentIndex := s.currentPointIndex + 1
          let isComplete := decide (s.totalPoints ≤ newCurrentIndex)
          (some { s with
              points := updatedPoints
              currentPointIndex := if isComplete then s.currentPointIndex else newCurrentIndex
              isActive := !isComplete
              endTime := if isComplete then some now else none },
           Haptic.success)

/-- The point counts offered by the `CameraControls` select (initial state
is 7, also in the list). -/
def allowedPointCounts : List ℕ := [5, 7, 10, 15]

/-- User events that mutate the session state of `CameraGuidance`. -/
inductive Event where
  | start (totalPoints : ℕ) (sessionId : String) (now : ℕ)
  | capture (motion : DeviceMotion) (cameraResult : Option String) (now : ℕ)
  | stop (now : ℕ)
  | reset
deriving DecidableEq, Repr

/-- One UI event applied to the session state.  `isCapturing` is false at
the start of every event in the single-threaded UI model (it is set and
cleared within a single `handleCapture` invocation). -/
def step (st : Option CaptureSession) : Event → Option CaptureSession
  | Event.start tp sid now => some (startSession tp sid now)
  | Event.capture motion res now => (handleCapture st motion false res now).1
  | Event.stop now => stopSession st now
  | Event.reset => resetSession

/-- Which events the UI can actually emit in a given state: the Start button
exists only when no session is active and only offers the point counts of
the select; the capture button is rendered only while a session is active. -/
def eventAllowed (st : Option CaptureSession) : Event → Prop
  | Event.start tp _ _ =>
      tp ∈ allowedPointCounts ∧
      (match st with
       | none => True
       | some s => s.isActive = false)
  | Event.capture _ _ _ =>
      (match st with
       | none => True
       | some s => s.isActive = true)
  | Event.stop _ => True
  | Event.reset => True

/-- Session states reachable from the initial `useState(null)` by sequences
of UI events. -/
inductive Reachable : Option CaptureSession → Prop where
  | init : Reachable none
  | step {st : Option CaptureSession} (e : Event) :
      Reachable st → eventAllowed st e → Reachable (step st e)

/-- The index invariant of the spec: while active the current index is a
valid position below `totalPoints`, and in every state it never exceeds
`totalPoints`. -/
def sessionIndexInvariant : Option CaptureSession → Prop
  | none => True
  | some s =>
      (s.isActive = true → s.currentPointIndex < s.totalPoints) ∧
      s.currentPointIndex ≤ s.totalPoints

/-- C9: `generateCapturePoints 5` yields points with x-values exactly
`[0, 25, 50, 75, 100]`. -/
theorem generateCapturePoints_five_x_values :
    (generateCapturePoints 5).map CapturePoint.x = [0, 25, 50, 75, 100] := by
  simp only [generateCapturePoints, List.map_map]
  norm_num [List.range_succ, Function.comp]

/-- C1 counterexample: at the reading `{alpha := 0, beta := 0, gamma := 0}`
the horizontal offset is 0, well below the default tolerance 15, yet
`calculateAlignment` returns `isAligned = false` (the beta component fails
the vertical check `|beta - 45| < 30`), so alignment does depend on beta. -/
theorem calculateAlignment_low_offset_not_aligned :
    |(calculateAlignment ⟨0, 0, 50, false, none⟩ ⟨0, 0, 0⟩).horizontalOffset| < 15 ∧
    (calculateAlignment ⟨0, 0, 50, false, none⟩ ⟨0, 0, 0⟩).isAligned = false := by
  constructor
  · show |(0 : ℚ) * 2| < 15
    norm_num
  · show (decide (|(0 : ℚ) * 2| < 15) && decide (|(0 : ℚ) - 45| < 30) && true) = false
    norm_num

/-- C1 amended: `calculateAlignment` returns `isAligned = true` exactly when
`|horizontalOffset| = |gamma * 2|` is below the tolerance AND the beta
component satisfies `|beta - 45| < 30`; the alpha component is irrelevant.
The part_003 revision instead requires `|gamma|`, `|beta|` and `|alpha|`
all below the tolerance. -/
theorem calculateAlignment_isAligned_iff (cp : CapturePoint) (m : DeviceMotion) (tol : ℚ) :
    ((calculateAlignment cp m tol).isAligned = true ↔
      |m.gamma * 2| < tol ∧ |m.beta - 45| < 30) ∧
    ((calculateAlignmentPart3 cp m tol).isAligned = true ↔
      |m.gamma| < tol ∧ |m.beta| < tol ∧ |m.alpha| < tol) := by
  constructor <;>
    simp [calculateAlignment, calculateAlignmentPart3, Bool.and_eq_true,
      decide_eq_true_eq, and_assoc]

/-- C8: both `CameraOverlay` revisions classify the guidance direction as
`center` exactly when the horizontal offset is within the revision's
threshold (5 for part_001, 10 for part_002), and otherwise produce a
lateral direction determined solely by the offset's sign (with the
left/right mapping inverted between the two revisions). -/
theorem guidance_direction_classification (o : ℚ) :
    classifyGuidancePart1 o =
      (if |o| ≤ 5 then Direction.center else if o < 0 then Direction.left else Direction.right) ∧
    classifyGuidancePart2 o =
      (if |o| ≤ 10 then Direction.center else if o < 0 then Direction.right else Direction.left) := by
  constructor
  · unfold classifyGuidancePart1
    by_cases h1 : o < -5
    · rw [if_pos h1, if_neg (fun habs => absurd (abs_le.mp habs).1 (not_le.mpr h1)),
        if_pos (by linarith)]
    · by_cases h2 : 5 < o
      · rw [if_neg h1, if_pos h2, if_neg (fun habs => absurd (abs_le.mp habs).2 (not_le.mpr h2)),
          if_neg (by push_neg; linarith)]
      · rw [if_neg h1, if_neg h2, if_pos (abs_le.mpr ⟨by linarith, by linarith⟩)]
  · unfold classifyGuidancePart2
    by_cases h1 : o < -10
    · rw [if_pos h1, if_neg (fun habs => absurd (abs_le.mp habs).1 (not_le.mpr h1)),
        if_pos (by linarith)]
    · by_cases h2 : 10 < o
      · rw [if_neg h1, if_pos h2, if_neg (fun habs => absurd (abs_le.mp habs).2 (not_le.mpr h2)),
          if_neg (by push_neg; linarith)]
      · rw [if_neg h1, if_neg h2, if_pos (abs_le.mpr ⟨by linarith, by linarith⟩)]

/-- C10: `calculateOverlapPercentage` returns 0 when the next point is
undefined, and otherwise its result never exceeds 100 under IEEE ordering —
also when the two points share an x coordinate, where the division's
denominator is zero (there the raw quotient is +Infinity, clamped to 100
by `Math.min`, or NaN when the user distance is also zero, and NaN does
not compare greater than 100). -/
theorem calculateOverlapPercentage_bounded (cp : CapturePoint)
    (np : Option CapturePoint) (u : ℚ) :
    calculateOverlapPercentage cp none u = JSNum.num 0 ∧
    ¬ jsGtConst (calculateOverlapPercentage cp np u) 100 := by
  refine ⟨rfl, ?_⟩
  cases np with
  | none => simp [calculateOverlapPercentage, jsGtConst]
  | some q =>
    show ¬ jsGtConst (jsMin 100 _) 100
    generalize jsMulConst _ 100 = y
    cases y <;> simp [jsMin, jsGtConst]

/-- C7: when the host camera call fails (`Camera.getPhoto` throws), the
session state after `handleCapture` is exactly the state before it, so the
user can retry from the same state. -/
theorem handleCapture_camera_failure_noop (session : Option CaptureSession)
    (motion : DeviceMotion) (isCapturing : Bool) (now : ℕ) :
    (handleCapture session motion isCapturing none now).1 = session := by
  cases session with
  | none => rfl
  | some s =>
    simp only [handleCapture]
    cases hcp : s.points[s.currentPointIndex]? with
    | none => rfl
    | some cp =>
      by_cases h : (!(calculateAlignment cp motion).isAligned || isCapturing) = true <;>
        simp [h]

/-- C4: whenever the derived alignment of the current state has
`isAligned = false`, a capture attempt returns the session unchanged and
fires the warning haptic pulse. -/
theorem handleCapture_misaligned_noop (session : Option CaptureSession)
    (motion : DeviceMotion) (isCapturing : Bool) (cameraResult : Option String) (now : ℕ)
    (h : (alignmentOf session motion).isAligned = false) :
    handleCapture session motion isCapturing cameraResult now = (session, Haptic.warning) := by
  cases session with
  | none => rfl
  | some s =>
    simp only [alignmentOf, currentPointOf] at h
    simp only [handleCapture]
    cases hcp : s.points[s.currentPointIndex]? with
    | none => rfl
    | some cp =>
      simp only [hcp] at h
      simp [h]

/-- C4 witness: a concrete active one-point session with a flat reading
(beta = 0 fails the vertical check) is misaligned, and a capture attempt
there returns the very same session with a warning pulse. -/
theorem handleCapture_misaligned_noop_witness :
    (alignmentOf (some ⟨"sid", [⟨0, 0, 50, false, none⟩], 1, 0, 30, true, 3, none⟩)
        ⟨0, 0, 0⟩).isAligned = false ∧
    handleCapture (some ⟨"sid", [⟨0, 0, 50, false, none⟩], 1, 0, 30, true, 3, none⟩)
        ⟨0, 0, 0⟩ false (some "img") 4 =
      (some ⟨"sid", [⟨0, 0, 50, false, none⟩], 1, 0, 30, true, 3, none⟩, Haptic.warning) := by
  have h : (alignmentOf (some ⟨"sid", [⟨0, 0, 50, false, none⟩], 1, 0, 30, true, 3, none⟩)
      ⟨0, 0, 0⟩).isAligned = false := by
    show (decide (|(0 : ℚ) * 2| < 15) && decide (|(0 : ℚ) - 45| < 30) && true) = false
    norm_num
  exact ⟨h, handleCapture_misaligned_noop _ _ false (some "img") 4 h⟩

/-- C5: capturing successfully while the current index is the last point
(`totalPoints - 1`) deactivates the session and stamps `endTime`. -/
theorem handleCapture_last_point_completes (s : CaptureSession) (motion : DeviceMotion)
    (dataUrl : String) (now : ℕ) (cp : CapturePoint)
    (hactive : s.isActive = true)
    (hlast : s.currentPointIndex = s.totalPoints - 1)
    (hcp : s.points[s.currentPointIndex]? = some cp)
    (haligned : (calculateAlignment cp motion).isAligned = true) :
    ∃ s2, handleCapture (some s) motion false (some dataUrl) now = (some s2, Haptic.success) ∧
      s2.isActive = false ∧ s2.endTime = some now := by
  have hdc : decide (s.totalPoints ≤ s.currentPointIndex + 1) = true :=
    decide_eq_true (by omega)
  simp only [handleCapture, hcp, haligned, Bool.not_true, Bool.or_false, Bool.false_eq_true,
    if_false, hdc, if_true, Bool.not_true]
  exact ⟨_, rfl, rfl, rfl⟩

/-- C5 witness: a one-point active session at index 0 = totalPoints - 1 with
an aligned reading (gamma = 0, beta = 45): the capture completes the
session and stamps `endTime = 9`. -/
theorem handleCapture_last_point_completes_witness :
    ∃ s2, handleCapture (some ⟨"w5", [⟨0, 0, 50, false, none⟩], 1, 0, 30, true, 5, none⟩)
        ⟨0, 45, 0⟩ false (some "img5") 9 = (some s2, Haptic.success) ∧
      s2.isActive = false ∧ s2.endTime = some 9 :=
  handleCapture_last_point_completes _ ⟨0, 45, 0⟩ "img5" 9 ⟨0, 0, 50, false, none⟩
    rfl rfl rfl
    (by show (decide (|(0 : ℚ) * 2| < 15) && decide (|(45 : ℚ) - 45| < 30) && true) = true
        norm_num)

/-- Helper for the frame property: setting index `i` of a list to a value
that agrees with the old entry under `f` leaves the `f`-image of the list
unchanged. -/
theorem map_set_agree {α β : Type} (f : α → β) (l : List α) (i : ℕ) (cp v : α)
    (hcp : l[i]? = some cp) (hf : f v = f cp) : (l.set i v).map f = l.map f := by
  apply List.ext_getElem?
  intro n
  by_cases hn : n = i
  · subst hn
    have hlt : n < l.length := (List.getElem?_eq_some_iff.mp hcp).1
    rw [List.getElem?_map, List.getElem?_map, List.getElem?_set_self hlt, hcp]
    simp [hf]
  · rw [List.getElem?_map, List.getElem?_map, List.getElem?_set_ne (fun h => hn h.symm)]

/-- C6: a successful capture replaces only the entry at the current index
(setting its captured flag and image payload); every other entry, the list
length, and the id- and x-sequences of the points are unchanged; stopping a
session also leaves the point list untouched. -/
theorem handleCapture_success_frame (s : CaptureSession) (motion : DeviceMotion)
    (dataUrl : String) (now tstop : ℕ) (cp : CapturePoint)
    (hcp : s.points[s.currentPointIndex]? = some cp)
    (haligned : (calculateAlignment cp motion).isAligned = true) :
    ∃ s2, handleCapture (some s) motion false (some dataUrl) now = (some s2, Haptic.success) ∧
      s2.points.length = s.points.length ∧
      (∀ j, j ≠ s.currentPointIndex → s2.points[j]? = s.points[j]?) ∧
      s2.points[s.currentPointIndex]? =
        some { cp with captured := true, imageData := some dataUrl } ∧
      s2.points.map CapturePoint.id = s.points.map CapturePoint.id ∧
      s2.points.map CapturePoint.x = s.points.map CapturePoint.x ∧
      Option.map CaptureSession.points (stopSession (some s) tstop) = some s.points := by
  have hlt : s.currentPointIndex < s.points.length := (List.getElem?_eq_some_iff.mp hcp).1
  simp only [handleCapture, hcp, haligned, Bool.not_true, Bool.or_false, Bool.false_eq_true,
    if_false]
  refine ⟨_, rfl, List.length_set .., ?_, ?_, ?_, ?_, rfl⟩
  · exact fun j hj => List.getElem?_set_ne (fun h => hj h.symm)
  · exact List.getElem?_set_self hlt
  · exact map_set_agree CapturePoint.id s.points s.currentPointIndex cp _ hcp rfl
  · exact map_set_agree CapturePoint.x s.points s.currentPointIndex cp _ hcp rfl

/-- C6 witness: in a concrete two-point active session, capturing at index 0
with an aligned reading marks only point 0 captured and leaves point 1, the
length, and the id/x sequences unchanged. -/
theorem handleCapture_success_frame_witness :
    ∃ s2, handleCapture
        (some ⟨"w6", [⟨0, 0, 50, false, none⟩, ⟨1, 100, 50, false, none⟩], 2, 0, 30, true, 1, none⟩)
        ⟨0, 45, 0⟩ false (some "img6") 2 = (some s2, Haptic.success) ∧
      s2.points.length = [⟨0, 0, 50, false, none⟩, (⟨1, 100, 50, false, none⟩ : CapturePoint)].length ∧
      (∀ j, j ≠ 0 → s2.points[j]? =
        [⟨0, 0, 50, false, none⟩, (⟨1, 100, 50, false, none⟩ : CapturePoint)][j]?) ∧
      s2.points[(0 : ℕ)]? = some ⟨0, 0, 50, true, some "img6"⟩ ∧
      s2.points.map CapturePoint.id =
        [⟨0, 0, 50, false, none⟩, (⟨1, 100, 50, false, none⟩ : CapturePoint)].map CapturePoint.id ∧
      s2.points.map CapturePoint.x =
        [⟨0, 0, 50, false, none⟩, (⟨1, 100, 50, false, none⟩ : CapturePoint)].map CapturePoint.x ∧
      Option.map CaptureSession.points (stopSession
        (some ⟨"w6", [⟨0, 0, 50, false, none⟩, ⟨1, 100, 50, false, none⟩], 2, 0, 30, true, 1, none⟩) 4) =
        some [⟨0, 0, 50, false, none⟩, ⟨1, 100, 50, false, none⟩] :=
  handleCapture_success_frame _ ⟨0, 45, 0⟩ "img6" 2 4 ⟨0, 0, 50, false, none⟩
    rfl
    (by show (decide (|(0 : ℚ) * 2| < 15) && decide (|(45 : ℚ) - 45| < 30) && true) = true
        norm_num)

/-- The x-sequence of `generateCapturePoints` as a map over `List.range`. -/
theorem generateCapturePoints_map_x (N : ℕ) :
    (generateCapturePoints N).map CapturePoint.x =
      (List.range N).map (fun i : ℕ => ((i : ℚ) / ((N : ℚ) - 1)) * 100) := by
  simp [generateCapturePoints, List.map_map, Function.comp]

/-- C2 counterexample: `generateCapturePoints 1` has exactly one point, so
its first and last x-value coincide and cannot be 0 and 100 at the same
time; the claimed spanning property fails at N = 1. -/
theorem generateCapturePoints_one_cannot_span :
    (generateCapturePoints 1).length = 1 ∧
    ¬(((generateCapturePoints 1).map CapturePoint.x).head? = some 0 ∧
      ((generateCapturePoints 1).map CapturePoint.x).getLast? = some 100) := by
  refine ⟨rfl, ?_⟩
  rintro ⟨h0, h100⟩
  rw [List.head?_eq_getElem?] at h0
  rw [List.getLast?_eq_getElem?,
    show ((generateCapturePoints 1).map CapturePoint.x).length = 1 from rfl] at h100
  rw [h0] at h100
  norm_num at h100

/-- C2 amended: for every N ≥ 2, `generateCapturePoints N` yields exactly N
points whose x-values strictly increase from 0 (first) to 100 (last), each
with y = 50 and captured = false.  (At N = 1 the single point cannot span
0–100 and its x is a 0/0 artifact.) -/
theorem generateCapturePoints_spec (N : ℕ) (hN : 2 ≤ N) :
    (generateCapturePoints N).length = N ∧
    ((generateCapturePoints N).map CapturePoint.x).head? = some 0 ∧
    ((generateCapturePoints N).map CapturePoint.x).getLast? = some 100 ∧
    ((generateCapturePoints N).map CapturePoint.x).Pairwise (· < ·) ∧
    ∀ p ∈ generateCapturePoints N, p.y = 50 ∧ p.captured = false := by
  have hd : (0 : ℚ) < (N : ℚ) - 1 := by
    have h2 : (2 : ℚ) ≤ (N : ℚ) := by exact_mod_cast hN
    linarith
  refine ⟨?_, ?_, ?_, ?_, ?_⟩
  · simp [generateCapturePoints]
  · rw [generateCapturePoints_map_x, List.head?_eq_getElem?, List.getElem?_map,
      List.getElem?_range (by omega)]
    simp
  · rw [generateCapturePoints_map_x, List.getLast?_eq_getElem?]
    simp only [List.length_map, List.length_range]
    rw [List.getElem?_map, List.getElem?_range (by omega : N - 1 < N)]
    have hcast : ((N - 1 : ℕ) : ℚ) = (N : ℚ) - 1 := by
      rw [Nat.cast_sub (by omega : 1 ≤ N), Nat.cast_one]
    simp only [Option.map_some']
    rw [hcast, div_self (ne_of_gt hd), one_mul]
  · rw [generateCapturePoints_map_x]
    refine List.Pairwise.map _ ?_ (List.sorted_lt_range N)
    intro a b hab
    have hab2 : (a : ℚ) < (b : ℚ) := by exact_mod_cast hab
    have hinv : (0 : ℚ) < ((N : ℚ) - 1)⁻¹ := inv_pos.mpr hd
    simp only [div_eq_mul_inv]
    exact mul_lt_mul_of_pos_right (mul_lt_mul_of_pos_right hab2 hinv) (by norm_num)
  · intro p hp
    simp only [generateCapturePoints, List.mem_map, List.mem_range] at hp
    obtain ⟨i, _, rfl⟩ := hp
    exact ⟨rfl, rfl⟩

/-- C2 witness: the amended spec at N = 5. -/
theorem generateCapturePoints_spec_witness :
    (generateCapturePoints 5).length = 5 ∧
    ((generateCapturePoints 5).map CapturePoint.x).head? = some 0 ∧
    ((generateCapturePoints 5).map CapturePoint.x).getLast? = some 100 ∧
    ((generateCapturePoints 5).map CapturePoint.x).Pairwise (· < ·) ∧
    ∀ p ∈ generateCapturePoints 5, p.y = 50 ∧ p.captured = false :=
  generateCapturePoints_spec 5 (by norm_num)

/-- C3: every session state reachable from `useState(null)` by UI events
(start, successful or failed captures, stop, reset) keeps
`currentPointIndex` in `[0, totalPoints)` while active, and never lets it
exceed `totalPoints` in any state. -/
theorem reachable_session_index_invariant (st : Option CaptureSession)
    (h : Reachable st) : sessionIndexInvariant st := by
  induction h with
  | init => trivial
  | step e hre hallowed ih =>
    cases e with
    | start tp sid now =>
      obtain ⟨htp, _⟩ := hallowed
      have htp1 : 1 ≤ tp := by
        simp only [allowedPointCounts, List.mem_cons, List.mem_singleton,
          List.not_mem_nil, or_false] at htp
        rcases htp with rfl | rfl | rfl | rfl <;> omega
      exact ⟨fun _ => show 0 < tp by omega, show 0 ≤ tp by omega⟩
    | capture motion res now =>
      rename_i st
      cases st with
      | none => exact trivial
      | some s =>
        obtain ⟨hlt, hle⟩ := ih
        show sessionIndexInvariant ((handleCapture (some s) motion false res now).1)
        simp only [handleCapture]
        cases hcp : s.points[s.currentPointIndex]? with
        | none => exact ⟨hlt, hle⟩
        | some cp =>
          by_cases hg : (!(calculateAlignment cp motion).isAligned || false) = true
          · simp only [hg, if_true]
            exact ⟨hlt, hle⟩
          · simp only [Bool.not_eq_true] at hg
            simp only [hg, Bool.false_eq_true, if_false]
            cases res with
            | none => exact ⟨hlt, hle⟩
            | some dataUrl =>
              by_cases hc : s.totalPoints ≤ s.currentPointIndex + 1
              · have hdc : decide (s.totalPoints ≤ s.currentPointIndex + 1) = true :=
                  decide_eq_true hc
                simp only [hdc, if_true, Bool.not_true]
                exact ⟨fun hfalse => absurd hfalse (by simp), hle⟩
              · have hdc : decide (s.totalPoints ≤ s.currentPointIndex + 1) = false :=
                  decide_eq_false hc
                simp only [hdc, Bool.false_eq_true, if_false, Bool.not_false]
                exact ⟨fun _ => show s.currentPointIndex + 1 < s.totalPoints by omega,
                  show s.currentPointIndex + 1 ≤ s.totalPoints by omega⟩
    | stop now =>
      rename_i st
      cases st with
      | none => exact trivial
      | some s =>
        obtain ⟨hlt, hle⟩ := ih
        exact ⟨fun hfalse => absurd hfalse (by simp), hle⟩
    | reset => trivial

/-- C3 witness: the invariant holds at the concrete state reached by
starting a 5-point session from the initial empty state. -/
theorem reachable_session_index_invariant_witness :
    sessionIndexInvariant (step none (Event.start 5 "sid" 0)) :=
  reachable_session_index_invariant _
    (Reachable.step (Event.start 5 "sid" 0) Reachable.init ⟨by decide, trivial⟩)
